import Mathlib

/-!
Verification of the mem0 HTTP façade (`mem0_server.py`, `app/config/settings.py`,
`app/models/schemas.py`).

The server is a thin wrapper: each endpoint checks the global adapter
(`memory_instance`), delegates to the external memory library, reshapes the
result and maps failures to HTTP status codes.  The external library is
modelled as an oracle (`Mem0Ops`): a record of pure functions, each returning
`Except String _` where `.error msg` stands for a raised exception with message
`msg`.  Every handler returns the HTTP outcome together with the list of
library calls it performed (`List LibCall`), so "no external call is made" and
"fetch-all then delete each" are provable statements.  Python floats that are
merely passed through (scores) are modelled as `Rat`; JSON object metadata is
modelled as an association list.
-/

namespace Mem0Server

/-- Arbitrary JSON-object metadata (`Dict[str, Any]`), modelled as an
association list of string keys and values.  Only presence/absence and
pass-through identity matter to the server, never the payload structure. -/
abbrev Metadata := List (String × String)

/-- Request body of `POST /memory/add` (`MemoryInput` in `mem0_server.py`,
lines 44-51): `content` and `user_id` required, `metadata` optional with
default `{}` (a `none` here stands for an explicit JSON `null`). -/
structure MemoryInput where
  content : String
  user_id : String
  metadata : Option Metadata
deriving DecidableEq, Repr

/-- Request body of `POST /memory/search` (`SearchInput`, lines 54-58). -/
structure SearchInput where
  query : String
  user_id : String
  limit : Nat
deriving DecidableEq, Repr

/-- Validation performed by pydantic on `MemoryInput` (lines 46-47):
`content` has `min_length=1` and `user_id` has `min_length=1`; there is no
maximum length on either field. -/
abbrev MemoryInput.accepts (content user_id : String) : Prop :=
  1 ≤ content.length ∧ 1 ≤ user_id.length

/-- Validation performed by pydantic on `SearchInput` (lines 56-58):
`query` and `user_id` have `min_length=1` and `limit` has `ge=1, le=100`;
there is no maximum length on `query` or `user_id`. -/
abbrev SearchInput.accepts (query user_id : String) (limit : Nat) : Prop :=
  1 ≤ query.length ∧ 1 ≤ user_id.length ∧ 1 ≤ limit ∧ limit ≤ 100

/-- Default of the `limit` field of `SearchInput` (`Field(default=5)`). -/
def SearchInput.limitDefault : Nat := 5

/-- Validation of `MemoryCreate` in `app/models/schemas.py` (lines 13-21):
`content` has `min_length=1, max_length=10000`, `user_id` has
`min_length=1, max_length=100`.  This module is not imported by
`mem0_server.py`. -/
abbrev MemoryCreate.accepts (content user_id : String) : Prop :=
  1 ≤ content.length ∧ content.length ≤ 10000 ∧
    1 ≤ user_id.length ∧ user_id.length ≤ 100

/-- Validation of `MemorySearch` in `app/models/schemas.py` (lines 50-55):
`query` has `min_length=1, max_length=500`, `user_id` has
`min_length=1, max_length=100`, `limit` has `ge=1, le=100`. -/
abbrev MemorySearch.accepts (query user_id : String) (limit : Nat) : Prop :=
  1 ≤ query.length ∧ query.length ≤ 500 ∧
    1 ≤ user_id.length ∧ user_id.length ≤ 100 ∧ 1 ≤ limit ∧ limit ≤ 100

/-- Validation of `BatchMemoryInput` (`mem0_server.py` lines 506-508):
`memories` has `min_items=1, max_items=50`. -/
abbrev BatchMemoryInput.accepts (memories : List MemoryInput) : Prop :=
  1 ≤ memories.length ∧ memories.length ≤ 50

/-- One raw entry of the sequence returned by `memory_instance.search`
(lines 342-356 inspect its shape).  `dict m s md` is a mapping whose
`"memory"`, `"score"`, `"metadata"` keys may each be absent (`none`);
`obj m s md` is a non-mapping object that has a `memory` attribute (value `m`)
and optionally `score` / `metadata` attributes; `str s` is a bare string;
`other` is any value matching none of the three `isinstance`/`hasattr`
tests. -/
inductive RawResult where
  | dict (memory : Option String) (score : Option Rat) (metadata : Option Metadata)
  | obj (memory : String) (score : Option Rat) (metadata : Option Metadata)
  | str (s : String)
  | other
deriving DecidableEq, Repr

/-- The fixed response item (`SearchResult` pydantic model, lines 81-85). -/
structure SearchResult where
  memory : String
  score : Rat
  metadata : Option Metadata
deriving DecidableEq, Repr

/-- Normalization of one raw search result, from the loop body at
lines 343-362: the local variables start as `memory_text = ""`,
`score = 1.0`, `metadata = {}`; a mapping is read with
`r.get("memory", "")`, `r.get("score", 0.0)`, `r.get("metadata")`;
an object with a `memory` attribute is read with `getattr(r, "memory", "")`,
`getattr(r, "score", 0.0)`, `getattr(r, "metadata", None)`; a bare string
replaces only `memory_text`, so it keeps the initial `score = 1.0` and
`metadata = {}`; any other value keeps all three initial values. -/
def normalizeResult : RawResult → SearchResult
  | .dict m s md => { memory := m.getD "", score := s.getD 0, metadata := md }
  | .obj m s md => { memory := m, score := s.getD 0, metadata := md }
  | .str s => { memory := s, score := 1, metadata := some [] }
  | .other => { memory := "", score := 1, metadata := some [] }

/-- One entry of the list returned by `memory_instance.get_all`, as inspected
by `delete_user_memories` (line 481): a mapping read with `mem.get("id")`
or an object read with `getattr(mem, "id", None)`.  The optional `content`
field carries the rest of the record, which the server never inspects. -/
inductive MemEntry where
  | dict (id : Option String) (content : Option String)
  | obj (id : Option String) (content : Option String)
deriving DecidableEq, Repr

/-- The id extraction at line 481:
`mem.get("id") if isinstance(mem, dict) else getattr(mem, "id", None)`. -/
def extractId : MemEntry → Option String
  | .dict id _ => id
  | .obj id _ => id

/-- Python truthiness of the extracted id (`if mem_id:` at line 482):
`None` and the empty string are falsy. -/
def idTruthy : Option String → Bool
  | none => false
  | some s => !s.isEmpty

/-- Raw return value of `memory_instance.get_all`, as inspected at
lines 399-404 and 471-476: a mapping containing a `"results"` key, a plain
list, or anything else. -/
inductive RawGetAll where
  | dictWithResults (results : List MemEntry)
  | plainList (l : List MemEntry)
  | other
deriving DecidableEq, Repr

/-- Normalization of the `get_all` return value (lines 399-404 and 471-476):
`raw["results"]` when it is a mapping with a `"results"` key, the list itself
when it is a list, and `[]` otherwise. -/
def normalizeGetAll : RawGetAll → List MemEntry
  | .dictWithResults results => results
  | .plainList l => l
  | .other => []

/-- One call into the external memory library, recorded by the handlers. -/
inductive LibCall where
  | add (content user_id : String) (metadata : Metadata)
  | search (query user_id : String) (limit : Nat)
  | get_all (user_id : String) (limit : Option Nat)
  | delete (memory_id : String)
deriving DecidableEq, Repr

/-- The external memory library (`memory_instance`), as an oracle of pure
functions.  `.error msg` models a raised exception carrying message `msg`.
`get_all` takes an optional limit because `get_memories` passes one and
`delete_user_memories` does not. -/
structure Mem0Ops where
  add : String → String → Metadata → Except String String
  search : String → String → Nat → Except String (List RawResult)
  get_all : String → Option Nat → Except String RawGetAll
  delete : String → Except String Unit

/-- The adapter call made by `add_memory` and `add_memories_batch`
(lines 293-297 and 529-533):
`memory_instance.add(memory.content, user_id=memory.user_id,
metadata=memory.metadata or {})`.  `metadata or {}` maps both `None` and `{}`
to `{}`, which `Option.getD []` reproduces. -/
def Mem0Ops.addOf (ops : Mem0Ops) (m : MemoryInput) : Except String String :=
  ops.add m.content m.user_id (m.metadata.getD [])

/-- An HTTP error raised by a handler (`HTTPException`). -/
structure HTTPError where
  statusCode : Nat
  detail : String
deriving DecidableEq, Repr

/-- One per-item error entry of the batch-add response (line 536):
`{"index": i, "error": str(e)}`. -/
structure BatchError where
  index : Nat
  error : String
deriving DecidableEq, Repr

/-- Data payload of a `SuccessResponse` (`data: Optional[Dict[str, Any]]`),
restricted to the shapes the handlers actually build: `{"memory_id": ...}`,
`{"deleted_count": ...}`, `{"memory_ids": ..., "errors": ...}`. -/
inductive RespData where
  | memoryId (id : String)
  | deletedCount (n : Nat)
  | batch (memory_ids : List String) (errors : Option (List BatchError))
deriving DecidableEq, Repr

/-- `SuccessResponse` pydantic model (lines 67-71). -/
structure SuccessResponse where
  success : Bool
  message : Option String
  data : Option RespData
deriving DecidableEq, Repr

/-- `SearchResponse` pydantic model (lines 88-92). -/
structure SearchResponse where
  success : Bool
  results : List SearchResult
  count : Nat
deriving DecidableEq, Repr

/-- `MemoryListResponse` pydantic model (lines 74-78). -/
structure MemoryListResponse where
  success : Bool
  memories : List MemEntry
  count : Nat
deriving DecidableEq, Repr

/-- Module-level configuration of `mem0_server.py` (lines 31-34): the values
of `QDRANT_URL`, `QDRANT_API_KEY`, `OPENAI_API_KEY`, `MEM0_COLLECTION` after
`os.getenv` with their defaults. -/
structure Config where
  qdrant_url : String
  qdrant_api_key : String
  openai_api_key : String
  mem0_collection : String
deriving DecidableEq, Repr

/-- Response of `GET /health` (lines 231-251), flattened. -/
structure HealthResponse where
  statusCode : Nat
  status : String
  service : String
  version : String
  qdrant_url : String
  qdrant_status : String
  collection : String
deriving DecidableEq, Repr

/-- `health_check` (lines 231-251): always HTTP 200; `status` is
`"healthy" if memory_instance else "degraded"`, the qdrant connection entry
reports the configured URL and `"connected" if memory_instance else
"disconnected"`, and the configured collection name is echoed. -/
def health_check (cfg : Config) (inst : Option Mem0Ops) : HealthResponse :=
  { statusCode := 200,
    status := if inst.isSome then "healthy" else "degraded",
    service := "mem0-server",
    version := "1.0.0",
    qdrant_url := cfg.qdrant_url,
    qdrant_status := if inst.isSome then "connected" else "disconnected",
    collection := cfg.mem0_collection }

/-- `add_memory` (lines 277-312): 503 when the adapter is unset; otherwise one
`add` call, wrapped in success data or a 500 carrying the exception text. -/
def add_memory (inst : Option Mem0Ops) (m : MemoryInput) :
    Except HTTPError SuccessResponse × List LibCall :=
  match inst with
  | none => (.error ⟨503, "Memory service not initialized"⟩, [])
  | some ops =>
    match ops.addOf m with
    | .ok result =>
      (.ok { success := true, message := some "Memory added successfully",
             data := some (.memoryId result) },
       [.add m.content m.user_id (m.metadata.getD [])])
    | .error e =>
      (.error ⟨500, "Failed to add memory: " ++ e⟩,
       [.add m.content m.user_id (m.metadata.getD [])])

/-- `search_memory` (lines 315-375): 503 when the adapter is unset; otherwise
one `search` call; each raw entry is normalized by the loop at lines 340-362
and `count` is `len(formatted_results)`. -/
def search_memory (inst : Option Mem0Ops) (s : SearchInput) :
    Except HTTPError SearchResponse × List LibCall :=
  match inst with
  | none => (.error ⟨503, "Memory service not initialized"⟩, [])
  | some ops =>
    match ops.search s.query s.user_id s.limit with
    | .ok results =>
      (.ok { success := true, results := results.map normalizeResult,
             count := (results.map normalizeResult).length },
       [.search s.query s.user_id s.limit])
    | .error e =>
      (.error ⟨500, "Failed to search memory: " ++ e⟩,
       [.search s.query s.user_id s.limit])

/-- `get_memories` (lines 378-419): 503 when the adapter is unset; otherwise
one `get_all` call whose raw result is normalized to a list. -/
def get_memories (inst : Option Mem0Ops) (user_id : String) (limit : Nat) :
    Except HTTPError MemoryListResponse × List LibCall :=
  match inst with
  | none => (.error ⟨503, "Memory service not initialized"⟩, [])
  | some ops =>
    match ops.get_all user_id (some limit) with
    | .ok raw =>
      (.ok { success := true, memories := normalizeGetAll raw,
             count := (normalizeGetAll raw).length },
       [.get_all user_id (some limit)])
    | .error e =>
      (.error ⟨500, "Failed to get memories: " ++ e⟩,
       [.get_all user_id (some limit)])

/-- `delete_memory` (lines 422-450): 503 when the adapter is unset; otherwise
one `delete` call. -/
def delete_memory (inst : Option Mem0Ops) (memory_id : String) :
    Except HTTPError SuccessResponse × List LibCall :=
  match inst with
  | none => (.error ⟨503, "Memory service not initialized"⟩, [])
  | some ops =>
    match ops.delete memory_id with
    | .ok _ =>
      (.ok { success := true, message := some "Memory deleted successfully",
             data := none },
       [.delete memory_id])
    | .error e =>
      (.error ⟨500, "Failed to delete memory: " ++ e⟩, [.delete memory_id])

/-- The loop of `delete_user_memories` (lines 478-484): for each fetched
entry, extract an id; when it is truthy, call `delete` and increment the
count; a raised exception propagates out of the loop (remaining entries are
not attempted).  Returns the final count (or the exception) and the delete
calls performed. -/
def deleteLoop (ops : Mem0Ops) : List MemEntry → Nat → Except String Nat × List LibCall
  | [], count => (.ok count, [])
  | m :: rest, count =>
    match extractId m with
    | none => deleteLoop ops rest count
    | some id =>
      if id.isEmpty then deleteLoop ops rest count
      else
        match ops.delete id with
        | .ok _ =>
          let (r, t) := deleteLoop ops rest (count + 1)
          (r, .delete id :: t)
        | .error e => (.error e, [.delete id])

/-- Continuation of `delete_user_memories` after a successful `get_all`
(lines 478-499): run the delete loop over the normalized list; on success
return `success=True` with the count, on a propagated exception return the
500 built by the `except` block. -/
def deleteUserFromList (ops : Mem0Ops) (user_id : String) (memories : List MemEntry) :
    Except HTTPError SuccessResponse × List LibCall :=
  match deleteLoop ops memories 0 with
  | (.ok n, t) =>
    (.ok { success := true,
           message := some ("Deleted " ++ toString n ++ " memories"),
           data := some (.deletedCount n) },
     .get_all user_id none :: t)
  | (.error e, t) =>
    (.error ⟨500, "Failed to delete memories: " ++ e⟩,
     .get_all user_id none :: t)

/-- `delete_user_memories` (lines 453-499): 503 when the adapter is unset;
otherwise fetch all memories of the user, normalize the raw shape, and delete
them one at a time. -/
def delete_user_memories (inst : Option Mem0Ops) (user_id : String) :
    Except HTTPError SuccessResponse × List LibCall :=
  match inst with
  | none => (.error ⟨503, "Memory service not initialized"⟩, [])
  | some ops =>
    match ops.get_all user_id none with
    | .ok raw => deleteUserFromList ops user_id (normalizeGetAll raw)
    | .error e =>
      (.error ⟨500, "Failed to delete memories: " ++ e⟩, [.get_all user_id none])

/-- The loop of `add_memories_batch` (lines 527-536), with the enumeration
index threaded through: each item is attempted; a success appends its id to
`memory_ids`, a failure appends `{"index": i, "error": str(e)}` to `errors`;
the loop never stops early. -/
def batchLoop (ops : Mem0Ops) : Nat → List MemoryInput →
    List String × List BatchError × List LibCall
  | _, [] => ([], [], [])
  | i, m :: rest =>
    match ops.addOf m with
    | .ok id =>
      let (ids, errs, t) := batchLoop ops (i + 1) rest
      (id :: ids, errs, .add m.content m.user_id (m.metadata.getD []) :: t)
    | .error e =>
      let (ids, errs, t) := batchLoop ops (i + 1) rest
      (ids, ⟨i, e⟩ :: errs, .add m.content m.user_id (m.metadata.getD []) :: t)

/-- `add_memories_batch` (lines 511-547): 503 when the adapter is unset;
otherwise run the loop over all items and return
`success = (len(errors) == 0)`, `message = f"Added ... memories"`, and
`data = {"memory_ids": ..., "errors": errors if errors else None}`. -/
def add_memories_batch (inst : Option Mem0Ops) (memories : List MemoryInput) :
    Except HTTPError SuccessResponse × List LibCall :=
  match inst with
  | none => (.error ⟨503, "Memory service not initialized"⟩, [])
  | some ops =>
    let (ids, errs, t) := batchLoop ops 0 memories
    (.ok { success := errs.isEmpty,
           message := some ("Added " ++ toString ids.length ++ " memories"),
           data := some (.batch ids (if errs.isEmpty then none else some errs)) },
     t)

/-- `global_exception_handler` (lines 213-224): any uncaught exception becomes
an HTTP 500 with `success=False`, `error="Internal server error"`, and
`detail = str(exc) if os.getenv("DEBUG") == "true" else None`.  `debugEnv` is
the value of the `DEBUG` environment variable (`none` when unset). -/
structure ErrorResponse where
  statusCode : Nat
  success : Bool
  error : String
  detail : Option String
deriving DecidableEq, Repr

/-- The top-level exception handler itself (lines 213-224). -/
def global_exception_handler (debugEnv : Option String) (excMsg : String) :
    ErrorResponse :=
  { statusCode := 500,
    success := false,
    error := "Internal server error",
    detail := if debugEnv = some "true" then some excMsg else none }

/-- Raw environment for `app/config/settings.py`: one optional value per
field of `Settings`, each `none` when the corresponding environment variable
is absent.  Pydantic parsing of well-formed values into their field types is
abstracted: values arrive already typed. -/
structure EnvSettings where
  qdrant_url : Option String
  qdrant_api_key : Option String
  openai_api_key : Option String
  openai_embedding_model : Option String
  mem0_collection : Option String
  mem0_host : Option String
  mem0_port : Option Nat
  cors_origins : Option (List String)
  log_level : Option String
  debug : Option Bool
  app_name : Option String
  app_version : Option String
deriving DecidableEq, Repr

/-- The typed settings object (`Settings` in `app/config/settings.py`,
lines 10-77). -/
structure Settings where
  qdrant_url : String
  qdrant_api_key : Option String
  openai_api_key : String
  openai_embedding_model : String
  mem0_collection : String
  mem0_host : String
  mem0_port : Nat
  cors_origins : List String
  log_level : String
  debug : Bool
  app_name : String
  app_version : String
deriving DecidableEq, Repr

/-- Construction of `Settings` (`Settings()` at line 81): every optional
field falls back to its declared default; the only field without a default is
`openai_api_key` (`Field(...)`), so construction raises a validation error
exactly when it is absent. -/
def Settings.load (env : EnvSettings) : Except String Settings :=
  match env.openai_api_key with
  | none => .error "openai_api_key: Field required"
  | some key =>
    .ok { qdrant_url := env.qdrant_url.getD "http://localhost:6333",
          qdrant_api_key := env.qdrant_api_key,
          openai_api_key := key,
          openai_embedding_model := env.openai_embedding_model.getD "text-embedding-3-small",
          mem0_collection := env.mem0_collection.getD "user_memories",
          mem0_host := env.mem0_host.getD "0.0.0.0",
          mem0_port := env.mem0_port.getD 8002,
          cors_origins := env.cors_origins.getD ["*"],
          log_level := env.log_level.getD "info",
          debug := env.debug.getD false,
          app_name := env.app_name.getD "Mem0 Server",
          app_version := env.app_version.getD "1.0.0" }

/-- Ids of the successful batch items in input order, one per item whose
`add` call succeeds (statement-side recursion mirroring the claim text). -/
def batchIds (ops : Mem0Ops) : List MemoryInput → List String
  | [] => []
  | m :: rest =>
    match ops.addOf m with
    | .ok id => id :: batchIds ops rest
    | .error _ => batchIds ops rest

/-- Error entries of the failing batch items: the enumeration index and the
exception message, one per item whose `add` call fails, in input order. -/
def batchErrors (ops : Mem0Ops) : Nat → List MemoryInput → List BatchError
  | _, [] => []
  | i, m :: rest =>
    match ops.addOf m with
    | .ok _ => batchErrors ops (i + 1) rest
    | .error e => ⟨i, e⟩ :: batchErrors ops (i + 1) rest

/-- A concrete oracle for instantiating theorems: every operation succeeds,
`search` returns no results, `get_all` returns an empty plain list. -/
def sampleOps : Mem0Ops :=
  { add := fun _ _ _ => .ok "mem-1",
    search := fun _ _ _ => .ok [],
    get_all := fun _ _ => .ok (.plainList []),
    delete := fun _ => .ok () }

/-- A concrete oracle whose `search` returns two raw results. -/
def wSearchOps : Mem0Ops :=
  { sampleOps with search := fun _ _ _ => .ok [.str "a", .dict (some "b") (some 1) none] }

/-- A fetched memory entry carrying no id. -/
def noIdEntry : MemEntry := .dict none (some "orphan")

/-- A concrete oracle whose `get_all` returns one id-less entry. -/
def opsWithBad : Mem0Ops :=
  { sampleOps with get_all := fun _ _ => .ok (.plainList [noIdEntry]) }

/-- A string of `n` copies of the character `a`. -/
def longString (n : Nat) : String := String.mk (List.replicate n 'a')

/-- An environment in which only the embedding API key is present. -/
def envOnlyKey (k : String) : EnvSettings :=
  ⟨none, none, some k, none, none, none, none, none, none, none, none, none⟩

/-- A sample valid memory input. -/
def wMem : MemoryInput := { content := "hello", user_id := "u", metadata := none }

/-- The length of `longString n` is `n`. -/
theorem longString_length (n : Nat) : (longString n).length = n := by
  simp [longString, String.length]

/-- Claim C3: with the adapter unset, every memory operation (add, search,
list, delete-one, delete-all-for-user, batch-add) returns HTTP 503
"Memory service not initialized" with an empty call trace — no
external-library method is invoked and no state is touched — while the health
endpoint still returns HTTP 200 with status "degraded". -/
theorem adapter_unset_all_503 :
    (∀ m : MemoryInput,
      add_memory none m = (.error ⟨503, "Memory service not initialized"⟩, [])) ∧
    (∀ s : SearchInput,
      search_memory none s = (.error ⟨503, "Memory service not initialized"⟩, [])) ∧
    (∀ (u : String) (l : Nat),
      get_memories none u l = (.error ⟨503, "Memory service not initialized"⟩, [])) ∧
    (∀ id : String,
      delete_memory none id = (.error ⟨503, "Memory service not initialized"⟩, [])) ∧
    (∀ u : String,
      delete_user_memories none u = (.error ⟨503, "Memory service not initialized"⟩, [])) ∧
    (∀ ms : List MemoryInput,
      add_memories_batch none ms = (.error ⟨503, "Memory service not initialized"⟩, [])) ∧
    (∀ cfg : Config, health_check cfg none =
      { statusCode := 200, status := "degraded", service := "mem0-server",
        version := "1.0.0", qdrant_url := cfg.qdrant_url,
        qdrant_status := "disconnected", collection := cfg.mem0_collection }) :=
  ⟨fun _ => rfl, fun _ => rfl, fun _ _ => rfl, fun _ => rfl, fun _ => rfl,
   fun _ => rfl, fun _ => rfl⟩

/-- Claim C5: the health endpoint always returns HTTP 200; its status is
"degraded" exactly when the adapter is unset and "healthy" exactly when it is
set, for every configuration and adapter state; the response always carries
the configured vector-store URL, a connection status of "connected" exactly
when the adapter is set, and the configured collection name. -/
theorem health_check_spec (cfg : Config) (inst : Option Mem0Ops) :
    (health_check cfg inst).statusCode = 200 ∧
    ((health_check cfg inst).status = "degraded" ↔ inst = none) ∧
    ((health_check cfg inst).status = "healthy" ↔ inst.isSome = true) ∧
    (health_check cfg inst).qdrant_url = cfg.qdrant_url ∧
    ((health_check cfg inst).qdrant_status = "connected" ↔ inst.isSome = true) ∧
    (health_check cfg inst).collection = cfg.mem0_collection := by
  cases inst <;> simp [health_check]

/-- Claim C7: every uncaught exception is turned into a generic HTTP 500 with
error "Internal server error"; the detail field carries the exception message
exactly when the DEBUG environment variable equals "true" and is null
otherwise, so with debug unset any two distinct exceptions produce identical
response bodies. -/
theorem exception_handler_no_leak :
    (∀ (d : Option String) (e : String),
      (global_exception_handler d e).statusCode = 500 ∧
      (global_exception_handler d e).success = false ∧
      (global_exception_handler d e).error = "Internal server error") ∧
    (∀ e : String, (global_exception_handler (some "true") e).detail = some e) ∧
    (∀ (d : Option String) (e : String),
      d ≠ some "true" → (global_exception_handler d e).detail = none) ∧
    (∀ (d : Option String) (e1 e2 : String),
      d ≠ some "true" →
        global_exception_handler d e1 = global_exception_handler d e2) := by
  refine ⟨fun d e => ⟨rfl, rfl, rfl⟩, fun e => by simp [global_exception_handler],
    fun d e h => by simp [global_exception_handler, h], fun d e1 e2 h => by
      simp [global_exception_handler, h]⟩

/-- Witness for C7 at concrete inputs: with `DEBUG` unset the detail is null
and two different exception messages yield the same response body. -/
theorem exception_handler_no_leak_witness :
    (global_exception_handler none "boom").detail = none ∧
    global_exception_handler none "boom" = global_exception_handler none "zap" :=
  ⟨exception_handler_no_leak.2.2.1 none "boom" (by simp),
   exception_handler_no_leak.2.2.2 none "boom" "zap" (by simp)⟩

/-- Counterexample to claim C1: a bare-string raw result and a mapping raw
result with the same content ("hello", no score, no metadata) normalize to
different items — the string keeps the loop's initial score 1.0 and empty
metadata mapping, while the mapping gets score 0.0 and absent metadata. -/
theorem normalize_str_ne_dict :
    normalizeResult (.str "hello") ≠ normalizeResult (.dict (some "hello") none none) := by
  decide

/-- Claim C1 (amended): the search handler turns every raw entry into the
fixed `SearchResult` shape, and mapping-form and object-form entries with
equivalent content normalize to equal items, with a missing score defaulting
to 0.0 and missing metadata to absent; bare-string entries, however, keep the
loop's initial values — score 1.0 and an empty metadata mapping — so they do
not coincide with the other two shapes. -/
theorem normalize_shapes_amended :
    (∀ (m : String) (sc : Option Rat) (md : Option Metadata),
      normalizeResult (.dict (some m) sc md) = normalizeResult (.obj m sc md)) ∧
    (∀ m : String, normalizeResult (.dict (some m) none none) =
      { memory := m, score := 0, metadata := none }) ∧
    (∀ s : String, normalizeResult (.str s) =
      { memory := s, score := 1, metadata := some [] }) ∧
    (∀ (ops : Mem0Ops) (sIn : SearchInput) (results : List RawResult),
      ops.search sIn.query sIn.user_id sIn.limit = .ok results →
        (search_memory (some ops) sIn).1 =
          .ok { success := true, results := results.map normalizeResult,
                count := (results.map normalizeResult).length }) := by
  refine ⟨fun m sc md => rfl, fun m => rfl, fun s => rfl, fun ops sIn results h => ?_⟩
  simp [search_memory, h]

/-- Witness for C1 (amended) at concrete inputs: mapping and object forms of
"hello" agree, and the handler applied to a concrete oracle returning no
results produces the normalized empty response. -/
theorem normalize_shapes_amended_witness :
    normalizeResult (.dict (some "hello") none none) = normalizeResult (.obj "hello" none none) ∧
    (search_memory (some sampleOps) { query := "q", user_id := "u", limit := 5 }).1 =
      .ok { success := true, results := [], count := 0 } :=
  ⟨normalize_shapes_amended.1 "hello" none none,
   normalize_shapes_amended.2.2.2 sampleOps { query := "q", user_id := "u", limit := 5 } [] rfl⟩

/-- Counterexample to claim C2: an add request whose content is 10001
characters long passes the running server's validation (`MemoryInput` only
requires non-emptiness) and the adapter IS called: `add_memory` performs the
`add` library call and answers success, instead of rejecting the request. -/
theorem overlong_content_accepted :
    10000 < (longString 10001).length ∧
    MemoryInput.accepts (longString 10001) "u" ∧
    (add_memory (some sampleOps)
      { content := longString 10001, user_id := "u", metadata := none }).2 =
      [.add (longString 10001) "u" []] ∧
    (add_memory (some sampleOps)
      { content := longString 10001, user_id := "u", metadata := none }).1 =
      .ok { success := true, message := some "Memory added successfully",
            data := some (.memoryId "mem-1") } := by
  refine ⟨by rw [longString_length]; omega, ⟨by rw [longString_length]; omega, by decide⟩,
    rfl, rfl⟩

/-- Claim C2 (amended): the running server's request models enforce only
non-emptiness, so content longer than 10000 characters (or user_id longer
than 100, or a query longer than 500) is accepted and reaches the adapter;
the documented length caps are enforced only by the separate, unused
`app/models/schemas.py` module, whose `MemoryCreate` and `MemorySearch`
models do reject such values. -/
theorem validation_bounds_amended :
    (∀ c u : String, 1 ≤ c.length → 1 ≤ u.length → MemoryInput.accepts c u) ∧
    (∀ (q u : String) (l : Nat), 1 ≤ q.length → 1 ≤ u.length → 1 ≤ l → l ≤ 100 →
      SearchInput.accepts q u l) ∧
    (∀ c u : String, 10000 < c.length → ¬MemoryCreate.accepts c u) ∧
    (∀ c u : String, 100 < u.length → ¬MemoryCreate.accepts c u) ∧
    (∀ (q u : String) (l : Nat), 500 < q.length → ¬MemorySearch.accepts q u l) := by
  refine ⟨fun c u h1 h2 => ⟨h1, h2⟩, fun q u l h1 h2 h3 h4 => ⟨h1, h2, h3, h4⟩,
    fun c u h hc => ?_, fun c u h hc => ?_, fun q u l h hq => ?_⟩
  · exact absurd hc.2.1 (by omega)
  · exact absurd hc.2.2.2 (by omega)
  · exact absurd hq.2.1 (by omega)

/-- Witness for C2 (amended) at concrete inputs: the 10001-character content
is accepted by the server's model and rejected by the schemas module's
model. -/
theorem validation_bounds_amended_witness :
    MemoryInput.accepts (longString 10001) "u" ∧
    ¬MemoryCreate.accepts (longString 10001) "u" := by
  constructor
  · exact validation_bounds_amended.1 _ "u" (by rw [longString_length]; omega) (by decide)
  · exact validation_bounds_amended.2.2.1 _ "u" (by rw [longString_length]; omega)

/-- The batch loop computes exactly the success ids, the indexed error
entries, and one `add` call per input item. -/
theorem batchLoop_eq (ops : Mem0Ops) (i : Nat) (ms : List MemoryInput) :
    batchLoop ops i ms =
      (batchIds ops ms, batchErrors ops i ms,
       ms.map fun m => LibCall.add m.content m.user_id (m.metadata.getD [])) := by
  induction ms generalizing i with
  | nil => rfl
  | cons m rest ih =>
    cases h : ops.addOf m <;> simp [batchLoop, batchIds, batchErrors, h, ih]

/-- The success ids are the input items' `add` results filtered to the
successful ones, in input order. -/
theorem batchIds_eq_filterMap (ops : Mem0Ops) (ms : List MemoryInput) :
    batchIds ops ms = ms.filterMap fun m => (ops.addOf m).toOption := by
  induction ms with
  | nil => rfl
  | cons m rest ih =>
    cases h : ops.addOf m <;> simp [batchIds, h, ih, Except.toOption]

/-- Each input item contributes to exactly one of the id list and the error
list. -/
theorem batch_length (ops : Mem0Ops) (i : Nat) (ms : List MemoryInput) :
    (batchIds ops ms).length + (batchErrors ops i ms).length = ms.length := by
  induction ms generalizing i with
  | nil => rfl
  | cons m rest ih =>
    have h2 := ih (i + 1)
    cases h : ops.addOf m <;> simp [batchIds, batchErrors, h] <;> omega

/-- The error list is empty exactly when every item's `add` call succeeds. -/
theorem batchErrors_eq_nil_iff (ops : Mem0Ops) (i : Nat) (ms : List MemoryInput) :
    batchErrors ops i ms = [] ↔ ∀ m ∈ ms, ∃ id, ops.addOf m = .ok id := by
  induction ms generalizing i with
  | nil => simp [batchErrors]
  | cons m rest ih =>
    cases h : ops.addOf m with
    | ok id => simp [batchErrors, h, ih (i + 1)]
    | error e => simp [batchErrors, h]

/-- Every error entry carries the enumeration index of a failing item and
that item's exception message. -/
theorem batchErrors_index (ops : Mem0Ops) (i : Nat) (ms : List MemoryInput) :
    ∀ be ∈ batchErrors ops i ms, ∃ j m, be.index = i + j ∧ ms[j]? = some m ∧
      ops.addOf m = .error be.error := by
  induction ms generalizing i with
  | nil => simp [batchErrors]
  | cons m rest ih =>
    intro be hbe
    cases h : ops.addOf m with
    | ok id =>
      simp only [batchErrors, h] at hbe
      obtain ⟨j, m2, hj, hget, herr⟩ := ih (i + 1) be hbe
      exact ⟨j + 1, m2, by omega, by simpa using hget, herr⟩
    | error e =>
      simp only [batchErrors, h, List.mem_cons] at hbe
      rcases hbe with rfl | hbe
      · exact ⟨0, m, by simp, by simp, h⟩
      · obtain ⟨j, m2, hj, hget, herr⟩ := ih (i + 1) be hbe
        exact ⟨j + 1, m2, by omega, by simpa using hget, herr⟩

/-- Claim C4: for every batch-add request of 1-50 items with the adapter
set, the handler attempts every item (one `add` call per item, never
aborting early) and returns HTTP 200 with one id per successful item in
input order, one error entry (index + message) per failed item, and overall
success exactly when the error list is empty; in particular the id count and
error count always sum to the number of items, and each error's index points
at a genuinely failing item. -/
theorem batch_add_complete (ops : Mem0Ops) (memories : List MemoryInput)
    (h1 : 1 ≤ memories.length) (h2 : memories.length ≤ 50) :
    BatchMemoryInput.accepts memories ∧
    add_memories_batch (some ops) memories =
      (.ok { success := (batchErrors ops 0 memories).isEmpty,
             message := some ("Added " ++ toString (batchIds ops memories).length ++
               " memories"),
             data := some (.batch (batchIds ops memories)
               (if (batchErrors ops 0 memories).isEmpty then none
                else some (batchErrors ops 0 memories))) },
       memories.map fun m => LibCall.add m.content m.user_id (m.metadata.getD [])) ∧
    batchIds ops memories = memories.filterMap (fun m => (ops.addOf m).toOption) ∧
    (batchIds ops memories).length + (batchErrors ops 0 memories).length =
      memories.length ∧
    ((batchErrors ops 0 memories).isEmpty = true ↔
      ∀ m ∈ memories, ∃ id, ops.addOf m = .ok id) ∧
    (∀ be ∈ batchErrors ops 0 memories, ∃ m, memories[be.index]? = some m ∧
      ops.addOf m = .error be.error) := by
  refine ⟨⟨h1, h2⟩, ?_, batchIds_eq_filterMap ops memories,
    batch_length ops 0 memories, ?_, ?_⟩
  · simp [add_memories_batch, batchLoop_eq]
  · rw [List.isEmpty_iff]
    exact batchErrors_eq_nil_iff ops 0 memories
  · intro be hbe
    obtain ⟨j, m, hj, hget, herr⟩ := batchErrors_index ops 0 memories be hbe
    refine ⟨m, ?_, herr⟩
    rw [hj, Nat.zero_add]
    exact hget

/-- Witness for C4 at a concrete input: a singleton batch against the sample
oracle yields one id, no errors, overall success, and one `add` call. -/
theorem batch_add_complete_witness :
    add_memories_batch (some sampleOps) [wMem] =
      (.ok { success := true, message := some "Added 1 memories",
             data := some (.batch ["mem-1"] none) },
       [.add "hello" "u" []]) ∧
    1 ≤ ([wMem] : List MemoryInput).length := by
  have h := batch_add_complete sampleOps [wMem] (by decide) (by decide)
  exact ⟨h.2.1.trans (by rfl), by decide⟩

/-- When every `delete` call succeeds, the delete loop deletes exactly the
entries with a truthy id, in order, and returns the starting count plus
their number. -/
theorem deleteLoop_all_ok (ops : Mem0Ops) (hdel : ∀ id, ops.delete id = .ok ())
    (ms : List MemEntry) (c : Nat) :
    deleteLoop ops ms c =
      (.ok (c + (ms.filter fun m => idTruthy (extractId m)).length),
       (ms.filter fun m => idTruthy (extractId m)).map fun m =>
         LibCall.delete ((extractId m).getD "")) := by
  induction ms generalizing c with
  | nil => simp [deleteLoop]
  | cons m rest ih =>
    cases hid : extractId m with
    | none => simp [deleteLoop, hid, idTruthy, ih]
    | some s =>
      cases hs : s.isEmpty with
      | true => simp [deleteLoop, hid, hs, idTruthy, ih]
      | false =>
        have ht : idTruthy (extractId m) = true := by simp [idTruthy, hid, hs]
        simp [deleteLoop, hid, hs, hdel s, ih (c + 1), ht, List.filter_cons, idTruthy]
        omega

/-- Claim C6: with the adapter set and no failing delete, delete-all-for-user
is implemented as one fetch-all followed by one delete per fetched memory
with a truthy id, and it answers success with a deleted_count equal to the
number of delete calls performed; in particular a user with zero memories
yields success with deleted_count 0 and no delete call. -/
theorem delete_user_memories_spec (ops : Mem0Ops) (user : String) (raw : RawGetAll)
    (hget : ops.get_all user none = .ok raw)
    (hdel : ∀ id, ops.delete id = .ok ()) :
    (normalizeGetAll raw = [] →
      delete_user_memories (some ops) user =
        (.ok { success := true, message := some "Deleted 0 memories",
               data := some (.deletedCount 0) },
         [.get_all user none])) ∧
    delete_user_memories (some ops) user =
      (.ok { success := true,
             message := some ("Deleted " ++
               toString ((normalizeGetAll raw).filter fun m =>
                 idTruthy (extractId m)).length ++ " memories"),
             data := some (.deletedCount
               ((normalizeGetAll raw).filter fun m => idTruthy (extractId m)).length) },
       .get_all user none ::
         ((normalizeGetAll raw).filter fun m => idTruthy (extractId m)).map fun m =>
           LibCall.delete ((extractId m).getD "")) := by
  have hloop := deleteLoop_all_ok ops hdel (normalizeGetAll raw) 0
  constructor
  · intro hnil
    simp only [delete_user_memories, hget, deleteUserFromList, hnil, deleteLoop]
    rfl
  · simp [delete_user_memories, hget, deleteUserFromList, hloop]

/-- Witness for C6 at a concrete input: the sample oracle returns an empty
list for the user, so the handler answers success with deleted_count 0 after
a single fetch call. -/
theorem delete_user_memories_spec_witness :
    delete_user_memories (some sampleOps) "u" =
      (.ok { success := true, message := some "Deleted 0 memories",
             data := some (.deletedCount 0) },
       [.get_all "u" none]) :=
  (delete_user_memories_spec sampleOps "u" (.plainList []) rfl fun _ => rfl).1 rfl

/-- Claim C10: a fetched entry without a truthy id (mapping without an "id"
key, object without an id attribute, or an empty-string id) is silently
skipped by delete-all-for-user: the loop's result, count and delete calls are
those of the same list without the entry, and at the handler level the
response is the one computed from the list without the entry — so the entry
is neither deleted nor counted and never causes an error response. -/
theorem delete_skips_idless (ops : Mem0Ops) (bad : MemEntry)
    (h : idTruthy (extractId bad) = false) :
    (∀ (l1 l2 : List MemEntry) (c : Nat),
      deleteLoop ops (l1 ++ bad :: l2) c = deleteLoop ops (l1 ++ l2) c) ∧
    (∀ (user : String) (l1 l2 : List MemEntry),
      ops.get_all user none = .ok (.plainList (l1 ++ bad :: l2)) →
        delete_user_memories (some ops) user = deleteUserFromList ops user (l1 ++ l2)) := by
  have key : ∀ (l2 : List MemEntry) (c : Nat),
      deleteLoop ops (bad :: l2) c = deleteLoop ops l2 c := by
    intro l2 c
    cases hid : extractId bad with
    | none => simp [deleteLoop, hid]
    | some s =>
      have hs : s.isEmpty = true := by
        simpa [idTruthy, hid] using h
      simp [deleteLoop, hid, hs]
  have part1 : ∀ (l1 l2 : List MemEntry) (c : Nat),
      deleteLoop ops (l1 ++ bad :: l2) c = deleteLoop ops (l1 ++ l2) c := by
    intro l1
    induction l1 with
    | nil => intro l2 c; simpa using key l2 c
    | cons m rest ih =>
      intro l2 c
      cases hid : extractId m with
      | none => simp [deleteLoop, hid, ih]
      | some s =>
        cases hs : s.isEmpty with
        | false =>
          cases hd : ops.delete s with
          | ok _ => simp [deleteLoop, hid, hs, hd, ih]
          | error e => simp [deleteLoop, hid, hs, hd]
        | true => simp [deleteLoop, hid, hs, ih]
  refine ⟨part1, fun user l1 l2 hg => ?_⟩
  simp [delete_user_memories, hg, deleteUserFromList, normalizeGetAll, part1]

/-- Witness for C10 at a concrete input: an id-less entry fetched for a user
is skipped both by the loop and by the handler. -/
theorem delete_skips_idless_witness :
    deleteLoop opsWithBad [noIdEntry] 0 = deleteLoop opsWithBad [] 0 ∧
    delete_user_memories (some opsWithBad) "u" = deleteUserFromList opsWithBad "u" [] := by
  have h := delete_skips_idless opsWithBad noIdEntry rfl
  exact ⟨h.1 [] [] 0, h.2 "u" [] [] rfl⟩

/-- Claim C8: for every valid search request with limit L whose library call
succeeds with at most L raw results (the external library's documented
contract), the handler answers success with count equal to the number of
returned normalized items, and that count is at most L; the request model's
default limit is 5. -/
theorem search_count_le_limit (ops : Mem0Ops) (s : SearchInput)
    (results : List RawResult)
    (_hv : SearchInput.accepts s.query s.user_id s.limit)
    (hs : ops.search s.query s.user_id s.limit = .ok results)
    (hlim : results.length ≤ s.limit) :
    ∃ resp, (search_memory (some ops) s).1 = .ok resp ∧
      resp.count = resp.results.length ∧ resp.count ≤ s.limit ∧
      SearchInput.limitDefault = 5 := by
  refine ⟨{ success := true, results := results.map normalizeResult,
            count := (results.map normalizeResult).length }, ?_, rfl, ?_, rfl⟩
  · simp [search_memory, hs]
  · simpa using hlim

/-- Witness for C8 at a concrete input: a search with limit 5 returning two
raw results yields count 2 = number of items ≤ 5. -/
theorem search_count_le_limit_witness :
    ∃ resp,
      (search_memory (some wSearchOps) { query := "q", user_id := "u", limit := 5 }).1 =
        .ok resp ∧ resp.count = resp.results.length ∧ resp.count ≤ 5 ∧
        SearchInput.limitDefault = 5 :=
  search_count_le_limit wSearchOps { query := "q", user_id := "u", limit := 5 }
    [.str "a", .dict (some "b") (some 1) none] (by decide) rfl (by decide)

/-- Claim C9: constructing the settings object fails exactly when the
mandatory embedding API key is absent from the environment, and every
optional field receives its documented default whenever its environment
variable is absent. -/
theorem settings_defaults_and_required_key :
    (∀ env : EnvSettings, env.openai_api_key = none →
      Settings.load env = .error "openai_api_key: Field required") ∧
    (∀ (env : EnvSettings) (k : String), env.openai_api_key = some k →
      ∃ s, Settings.load env = .ok s ∧ s.openai_api_key = k) ∧
    (∀ (env : EnvSettings) (s : Settings), Settings.load env = .ok s →
      (env.qdrant_url = none → s.qdrant_url = "http://localhost:6333") ∧
      (env.qdrant_api_key = none → s.qdrant_api_key = none) ∧
      (env.openai_embedding_model = none →
        s.openai_embedding_model = "text-embedding-3-small") ∧
      (env.mem0_collection = none → s.mem0_collection = "user_memories") ∧
      (env.mem0_host = none → s.mem0_host = "0.0.0.0") ∧
      (env.mem0_port = none → s.mem0_port = 8002) ∧
      (env.cors_origins = none → s.cors_origins = ["*"]) ∧
      (env.log_level = none → s.log_level = "info") ∧
      (env.debug = none → s.debug = false) ∧
      (env.app_name = none → s.app_name = "Mem0 Server") ∧
      (env.app_version = none → s.app_version = "1.0.0")) ∧
    (∀ k : String, Settings.load (envOnlyKey k) =
      .ok { qdrant_url := "http://localhost:6333", qdrant_api_key := none,
            openai_api_key := k,
            openai_embedding_model := "text-embedding-3-small",
            mem0_collection := "user_memories", mem0_host := "0.0.0.0",
            mem0_port := 8002, cors_origins := ["*"], log_level := "info",
            debug := false, app_name := "Mem0 Server", app_version := "1.0.0" }) := by
  refine ⟨fun env h => by simp [Settings.load, h], fun env k h => ?_, fun env s h => ?_,
    fun k => rfl⟩
  · exact ⟨{ qdrant_url := env.qdrant_url.getD "http://localhost:6333",
             qdrant_api_key := env.qdrant_api_key, openai_api_key := k,
             openai_embedding_model :=
               env.openai_embedding_model.getD "text-embedding-3-small",
             mem0_collection := env.mem0_collection.getD "user_memories",
             mem0_host := env.mem0_host.getD "0.0.0.0",
             mem0_port := env.mem0_port.getD 8002,
             cors_origins := env.cors_origins.getD ["*"],
             log_level := env.log_level.getD "info",
             debug := env.debug.getD false,
             app_name := env.app_name.getD "Mem0 Server",
             app_version := env.app_version.getD "1.0.0" },
           by simp only [Settings.load, h], rfl⟩
  · cases hk : env.openai_api_key with
    | none => simp [Settings.load, hk] at h
    | some k =>
      simp only [Settings.load, hk, Except.ok.injEq] at h
      subst h
      refine ⟨fun h1 => by simp [h1], fun h1 => by simp [h1], fun h1 => by simp [h1],
        fun h1 => by simp [h1], fun h1 => by simp [h1], fun h1 => by simp [h1],
        fun h1 => by simp [h1], fun h1 => by simp [h1], fun h1 => by simp [h1],
        fun h1 => by simp [h1], fun h1 => by simp [h1]⟩

/-- Witness for C9 at a concrete input: an environment holding only the key
"sk-test" yields the fully defaulted settings object. -/
theorem settings_defaults_witness :
    (envOnlyKey "sk-test").openai_api_key = some "sk-test" ∧
    (∃ s, Settings.load (envOnlyKey "sk-test") = .ok s ∧
      s.openai_api_key = "sk-test") :=
  ⟨rfl, settings_defaults_and_required_key.2.1 (envOnlyKey "sk-test") "sk-test" rfl⟩

end Mem0Server
